import Mathlib

/-!
# Transformation example (`src/ch1/1.5/Transformation/src/main.cpp`)

A shallow embedding of the textured-quad program.  Every call the program makes to an
external library (GLFW, glad, OpenGL, stb_image, the `Shader` wrapper, `std::cout`) is
recorded as an `Event` appended to the trace of a `World`; the few pieces of library state
the program depends on (the decoder's global flip flag, the window's close flag, the live
GL object names) are fields of `World`.  Everything the outside world decides (whether
the window can be created, what the decoder returns, which keys are pressed) is read
from an `Env` or from the list of `Frame`s handed to the frame loop.

Scalars of type `float` are embedded as rationals: every literal of the program
(`0.5f`, `1.0f`, `0.2f` ...) is read as the rational it denotes, and `cos` / `sin` are
functions supplied by the environment.
-/

namespace Trygl

/-! ## Enumerants of the absent headers -/

/-- Modelled from the spec: the window hints of `GLFW/glfw3.h` (header absent), kept
symbolic.  `openglForwardCompat` is the hint a forward-compatible context is asked with. -/
inductive Hint
  | contextVersionMajor
  | contextVersionMinor
  | openglProfile
  | openglForwardCompat
  deriving DecidableEq, Repr

/-- Modelled from the spec: the values a window hint is given (`GLFW/glfw3.h`, absent). -/
inductive HintValue
  | num (n : Nat)
  | coreProfile
  | glTrue
  deriving DecidableEq, Repr

/-- Modelled from the spec: the pixel formats of `glad.h` (header absent), kept symbolic. -/
inductive GLFormat
  | GL_RED
  | GL_RGB
  | GL_RGBA
  deriving DecidableEq, Repr

/-- Modelled from the spec: buffer binding targets of `glad.h` (header absent). -/
inductive BufTarget
  | GL_ARRAY_BUFFER
  | GL_ELEMENT_ARRAY_BUFFER
  deriving DecidableEq, Repr

/-- Modelled from the spec: texture parameter names of `glad.h` (header absent). -/
inductive TexParam
  | GL_TEXTURE_WRAP_S
  | GL_TEXTURE_WRAP_T
  | GL_TEXTURE_MIN_FILTER
  | GL_TEXTURE_MAG_FILTER
  deriving DecidableEq, Repr

/-- Modelled from the spec: texture parameter values of `glad.h` (header absent). -/
inductive TexValue
  | GL_REPEAT
  | GL_LINEAR
  deriving DecidableEq, Repr

/-- What is handed to `glBufferData`: the floats of `vertices` or the unsigned ints of
`indices`. -/
inductive BufData
  | floats (xs : List ℚ)
  | uints (xs : List Nat)
  deriving DecidableEq, Repr

/-! ## Events and world -/

/-- One call to an external library, with the arguments the program passes (and, for a
query, the answer it receives). -/
inductive Event
  | glfwInit
  | glfwWindowHint (hint : Hint) (value : HintValue)
  | glfwCreateWindow (width height : Nat) (title : String)
  | glfwTerminate
  | glfwMakeContextCurrent
  | glfwSetFramebufferSizeCallback
  | gladLoadGLLoader
  | print (msg : String)
  | shaderNew (vs fs : String)
  | shaderUse
  | shaderSetInt (name : String) (value : Int)
  | shaderDelete
  | glGenVertexArrays (name : Nat)
  | glGenBuffers (name : Nat)
  | glBindVertexArray (name : Nat)
  | glBindBuffer (target : BufTarget) (name : Nat)
  | glBufferData (target : BufTarget) (bytes : Nat) (data : BufData)
  | glVertexAttribPointer (index size stride offset : Nat)
  | glEnableVertexAttribArray (index : Nat)
  | glGenTextures (name : Nat)
  | glBindTexture (name : Nat)
  | glTexParameteri (pname : TexParam) (value : TexValue)
  | stbi_set_flip_vertically_on_load (flag : Bool)
  | stbi_load (path : String) (flipped : Bool)
  | glTexImage2D (internalformat : Option GLFormat) (width height : Int)
      (format : Option GLFormat)
  | glGenerateMipmap
  | stbi_image_free
  | glfwWindowShouldClose (answer : Bool)
  | glfwGetKeyEscape (pressed : Bool)
  | glfwSetWindowShouldClose (value : Bool)
  | glClearColor (r g b a : ℚ)
  | glClearColorBuffer
  | glActiveTexture (unit : Nat)
  | glfwGetTime (t : ℚ)
  | glGetUniformLocation (name : String)
  | glUniformMatrix4fv (data : List ℚ)
  | glDrawElements (count : Nat)
  | glfwSwapBuffers
  | glfwPollEvents
  | glDeleteVertexArrays (name : Nat)
  | glDeleteBuffers (name : Nat)
  | glDeleteTextures (name : Nat)
  deriving DecidableEq, Repr

/-- The library state the program reads or writes, together with the trace of calls. -/
structure World where
  trace : List Event
  flipFlag : Bool
  shouldClose : Bool
  contextCurrent : Bool
  resizeCallback : Bool
  genVAO : Nat
  genBuf : Nat
  genTex : Nat
  liveVAO : List Nat
  liveBuf : List Nat
  liveTex : List Nat
  deriving DecidableEq, Repr

/-- The world at process start: nothing called, every flag at its default. -/
def World.init : World :=
  { trace := [], flipFlag := false, shouldClose := false, contextCurrent := false,
    resizeCallback := false, genVAO := 0, genBuf := 0, genTex := 0,
    liveVAO := [], liveBuf := [], liveTex := [] }

/-- A decoded image as `stbi_load` reports it through its out-parameters. -/
structure Image where
  width : Int
  height : Int
  nrChannels : Int
  deriving DecidableEq, Repr

/-- What one iteration of the frame loop observes from outside. -/
structure Frame where
  escPressed : Bool
  time : ℚ
  closeEvent : Bool
  deriving DecidableEq, Repr

/-- Everything the outside world decides. `decode path flip` is the answer of `stbi_load`
for `path` when the global flip flag is `flip` (`none` is the null buffer). -/
structure Env where
  windowOk : Bool
  gladOk : Bool
  decode : String → Bool → Option Image
  cos : ℚ → ℚ
  sin : ℚ → ℚ
  inversesqrt : ℚ → ℚ

/-- Append one call to the trace. -/
def emit (e : Event) (w : World) : World :=
  { w with trace := w.trace ++ [e] }

/-- `stbi_set_flip_vertically_on_load(flag)`: writes the decoder's global flag. -/
def stbi_set_flip_vertically_on_load (flag : Bool) (w : World) : World :=
  { emit (.stbi_set_flip_vertically_on_load flag) w with flipFlag := flag }

/-- `stbi_load`: decodes with whatever the global flag is at the time of the call. -/
def stbi_load (env : Env) (path : String) (w : World) : Option Image × World :=
  (env.decode path w.flipFlag, emit (.stbi_load path w.flipFlag) w)

/-- `glGenTextures(1, &texture)`: a fresh, nonzero name. -/
def glGenTextures (w : World) : Nat × World :=
  let name := w.genTex + 1
  (name, { emit (.glGenTextures name) w with genTex := name, liveTex := name :: w.liveTex })

/-- `glGenBuffers(1, &b)`: a fresh, nonzero name. -/
def glGenBuffers (w : World) : Nat × World :=
  let name := w.genBuf + 1
  (name, { emit (.glGenBuffers name) w with genBuf := name, liveBuf := name :: w.liveBuf })

/-- `glGenVertexArrays(1, &VAO)`: a fresh, nonzero name. -/
def glGenVertexArrays (w : World) : Nat × World :=
  let name := w.genVAO + 1
  (name, { emit (.glGenVertexArrays name) w with genVAO := name, liveVAO := name :: w.liveVAO })

/-- `glDeleteVertexArrays(1, &name)`; the name 0 is silently ignored. -/
def glDeleteVertexArrays (name : Nat) (w : World) : World :=
  { emit (.glDeleteVertexArrays name) w with liveVAO := w.liveVAO.erase name }

/-- `glDeleteBuffers(1, &name)`; the name 0 is silently ignored. -/
def glDeleteBuffers (name : Nat) (w : World) : World :=
  { emit (.glDeleteBuffers name) w with liveBuf := w.liveBuf.erase name }

/-- `glDeleteTextures(1, &name)`; the name 0 is silently ignored. -/
def glDeleteTextures (name : Nat) (w : World) : World :=
  { emit (.glDeleteTextures name) w with liveTex := w.liveTex.erase name }

/-! ## `createTexture` -/

/-- The `if / else if / else if` chain of `createTexture`: `format` is declared without an
initialiser, so it holds a value only when one of the three branches assigns it. -/
def selectFormat (nrChannels : Int) : Option GLFormat :=
  if nrChannels = 1 then some .GL_RED
  else if nrChannels = 3 then some .GL_RGB
  else if nrChannels = 4 then some .GL_RGBA
  else none

/-- `createTexture(texturePath, flipVertical)`; returns the texture name. -/
def createTexture (env : Env) (texturePath : String) (flipVertical : Bool) (w : World) :
    Nat × World :=
  let (texture, w) := glGenTextures w
  let w := emit (.glBindTexture texture) w
  let w := emit (.glTexParameteri .GL_TEXTURE_WRAP_S .GL_REPEAT) w
  let w := emit (.glTexParameteri .GL_TEXTURE_WRAP_T .GL_REPEAT) w
  let w := emit (.glTexParameteri .GL_TEXTURE_MIN_FILTER .GL_LINEAR) w
  let w := emit (.glTexParameteri .GL_TEXTURE_MAG_FILTER .GL_LINEAR) w
  let w := if flipVertical then stbi_set_flip_vertically_on_load true w else w
  let (data, w) := stbi_load env texturePath w
  let w :=
    match data with
    | some img =>
      let format := selectFormat img.nrChannels
      let w := emit (.glTexImage2D format img.width img.height format) w
      emit .glGenerateMipmap w
    | none => emit (.print ("Failed to load texture: " ++ texturePath ++ "\n")) w
  let w := emit .stbi_image_free w
  let w := stbi_set_flip_vertically_on_load false w
  (texture, w)

/-- A sequence of `createTexture` calls, one per `(path, flipVertical)` pair. -/
def createTextures (env : Env) : List (String × Bool) → World → World
  | [], w => w
  | (p, f) :: rest, w => createTextures env rest (createTexture env p f w).2

/-- The decodes recorded in a trace, in order: the path and the flip flag in force. -/
def decodes : List Event → List (String × Bool)
  | [] => []
  | .stbi_load p f :: rest => (p, f) :: decodes rest
  | _ :: rest => decodes rest

/-- Is the event a GPU upload (`glTexImage2D`)? -/
def Event.isUpload : Event → Bool
  | .glTexImage2D _ _ _ _ => true
  | _ => false

/-- Is the event a mipmap generation? -/
def Event.isMipmap : Event → Bool
  | .glGenerateMipmap => true
  | _ => false

/-! ## Context bootstrap -/

/-- `SCR_WIDTH` of the source. -/
def SCR_WIDTH : Nat := 800

/-- `SCR_HEIGHT` of the source. -/
def SCR_HEIGHT : Nat := 600

/-- `glfwTerminate()`: destroys the window and its context. -/
def glfwTerminate (w : World) : World :=
  { emit .glfwTerminate w with contextCurrent := false, resizeCallback := false }

/-- `initializeGLFW()`; `none` is the null window handle. -/
def initializeGLFW (env : Env) (w : World) : Option Unit × World :=
  let w := emit .glfwInit w
  let w := emit (.glfwWindowHint .contextVersionMajor (.num 3)) w
  let w := emit (.glfwWindowHint .contextVersionMinor (.num 3)) w
  let w := emit (.glfwWindowHint .openglProfile .coreProfile) w
  let w := emit (.glfwCreateWindow SCR_WIDTH SCR_HEIGHT "LearnOpenGL") w
  if env.windowOk = false then
    let w := emit (.print "Failed to create GLFW window\n") w
    let w := glfwTerminate w
    (none, w)
  else
    let w := { emit .glfwMakeContextCurrent w with contextCurrent := true }
    let w := { emit .glfwSetFramebufferSizeCallback w with resizeCallback := true }
    (some (), w)

/-- `initializeGLAD()`. -/
def initializeGLAD (env : Env) (w : World) : Bool × World :=
  let w := emit .gladLoadGLLoader w
  if env.gladOk = false then
    (false, emit (.print "Failed to initialize GLAD\n") w)
  else
    (true, w)

/-! ## Geometry setup -/

/-- `sizeof(float)` and `sizeof(unsigned int)`, in bytes. -/
def sizeofScalar : Nat := 4

/-- The `vertices` array of `setupVertexData`. -/
def vertices : List ℚ :=
  [ 0.5,  0.5, 0.0, 1.0, 1.0,
    0.5, -0.5, 0.0, 1.0, 0.0,
   -0.5, -0.5, 0.0, 0.0, 0.0,
   -0.5,  0.5, 0.0, 0.0, 1.0 ]

/-- The `indices` array of `setupVertexData`. -/
def indices : List Nat :=
  [ 0, 1, 3,
    1, 2, 3 ]

/-- `setupVertexData()`; returns the vertex array name (the two buffer names are locals
that go out of scope). -/
def setupVertexData (w : World) : Nat × World :=
  let (VAO, w) := glGenVertexArrays w
  let (VBO, w) := glGenBuffers w
  let (EBO, w) := glGenBuffers w
  let w := emit (.glBindVertexArray VAO) w
  let w := emit (.glBindBuffer .GL_ARRAY_BUFFER VBO) w
  let w := emit (.glBufferData .GL_ARRAY_BUFFER (vertices.length * sizeofScalar)
    (.floats vertices)) w
  let w := emit (.glBindBuffer .GL_ELEMENT_ARRAY_BUFFER EBO) w
  let w := emit (.glBufferData .GL_ELEMENT_ARRAY_BUFFER (indices.length * sizeofScalar)
    (.uints indices)) w
  let w := emit (.glVertexAttribPointer 0 3 (5 * sizeofScalar) 0) w
  let w := emit (.glEnableVertexAttribArray 0) w
  let w := emit (.glVertexAttribPointer 1 2 (5 * sizeofScalar) (3 * sizeofScalar)) w
  let w := emit (.glEnableVertexAttribArray 1) w
  (VAO, w)

/-- A vertex attribute as `glVertexAttribPointer` configures it: component count, stride
and offset in bytes. -/
structure Attrib where
  size : Nat
  stride : Nat
  offset : Nat
  deriving DecidableEq, Repr

/-- The floats handed to the last `glBufferData(GL_ARRAY_BUFFER, ...)` of a trace. -/
def uploadedVertices (tr : List Event) : Option (List ℚ) :=
  tr.foldl (fun acc e =>
    match e with
    | .glBufferData .GL_ARRAY_BUFFER _ (.floats xs) => some xs
    | _ => acc) none

/-- The indices handed to the last `glBufferData(GL_ELEMENT_ARRAY_BUFFER, ...)` of a trace. -/
def uploadedIndices (tr : List Event) : Option (List Nat) :=
  tr.foldl (fun acc e =>
    match e with
    | .glBufferData .GL_ELEMENT_ARRAY_BUFFER _ (.uints xs) => some xs
    | _ => acc) none

/-- The last configuration a trace gives to vertex attribute `index`. -/
def attribPointer (index : Nat) (tr : List Event) : Option Attrib :=
  tr.foldl (fun acc e =>
    match e with
    | .glVertexAttribPointer i size stride offset =>
      if i = index then some { size := size, stride := stride, offset := offset } else acc
    | _ => acc) none

/-- The float slots of the bound buffer that attribute `a` reads for vertex `v`: component
`k` sits at byte `offset + v * stride + k * sizeof(float)`. -/
def Attrib.slots (a : Attrib) (v : Nat) : List Nat :=
  (List.range a.size).map fun k => (a.offset + v * a.stride + k * sizeofScalar) / sizeofScalar

/-- Read the given float slots of a buffer; `none` when one lies outside it. -/
def readSlots (data : List ℚ) : List Nat → Option (List ℚ)
  | [] => some []
  | i :: rest => (data[i]?).bind fun x => (readSlots data rest).map fun xs => x :: xs

/-- The values attribute `a` yields for vertex `v` out of `data`; `none` when a slot lies
outside the buffer. -/
def Attrib.fetch (a : Attrib) (data : List ℚ) (v : Nat) : Option (List ℚ) :=
  readSlots data (a.slots v)

/-- The draw counts of the `glDrawElements` calls of a trace, in order. -/
def drawCounts : List Event → List Nat
  | [] => []
  | .glDrawElements n :: rest => n :: drawCounts rest
  | _ :: rest => drawCounts rest

/-! ## The math collaborator -/

/-- Modelled from the spec: `glm::vec3` (the glm headers are absent), over exact scalars. -/
structure Vec3 where
  x : ℚ
  y : ℚ
  z : ℚ
  deriving DecidableEq, Repr

/-- Modelled from the spec: `glm::vec4` (the glm headers are absent), over exact scalars. -/
structure Vec4 where
  x : ℚ
  y : ℚ
  z : ℚ
  w : ℚ
  deriving DecidableEq, Repr

/-- Modelled from the spec: `glm::vec4` componentwise sum. -/
def Vec4.add (a b : Vec4) : Vec4 :=
  { x := a.x + b.x, y := a.y + b.y, z := a.z + b.z, w := a.w + b.w }

/-- Modelled from the spec: `glm::vec4` times a scalar. -/
def Vec4.scale (a : Vec4) (s : ℚ) : Vec4 :=
  { x := a.x * s, y := a.y * s, z := a.z * s, w := a.w * s }

/-- Modelled from the spec: `glm::mat4` (the glm headers are absent), stored as its four
columns, as glm does. -/
structure Mat4 where
  c0 : Vec4
  c1 : Vec4
  c2 : Vec4
  c3 : Vec4
  deriving DecidableEq, Repr

/-- Modelled from the spec: `glm::mat4(1.0f)`, the identity `I`. -/
def Mat4.identity : Mat4 :=
  { c0 := ⟨1, 0, 0, 0⟩, c1 := ⟨0, 1, 0, 0⟩, c2 := ⟨0, 0, 1, 0⟩, c3 := ⟨0, 0, 0, 1⟩ }

/-- Modelled from the spec: the matrix product `a · b` of two column-major matrices
(column `j` of the product is `a` applied to column `j` of `b`). -/
def Mat4.mul (a b : Mat4) : Mat4 :=
  let col (v : Vec4) : Vec4 :=
    (((a.c0.scale v.x).add (a.c1.scale v.y)).add (a.c2.scale v.z)).add (a.c3.scale v.w)
  { c0 := col b.c0, c1 := col b.c1, c2 := col b.c2, c3 := col b.c3 }

/-- Modelled from the spec: applying a matrix to a column vector. -/
def Mat4.apply (a : Mat4) (v : Vec4) : Vec4 :=
  (((a.c0.scale v.x).add (a.c1.scale v.y)).add (a.c2.scale v.z)).add (a.c3.scale v.w)

/-- Modelled from the spec: `glm::translate(m, v)` (glm headers absent): keeps the first
three columns of `m` and replaces the fourth by `m[0]*v.x + m[1]*v.y + m[2]*v.z + m[3]`. -/
def glmTranslate (m : Mat4) (v : Vec3) : Mat4 :=
  { m with c3 := (((m.c0.scale v.x).add (m.c1.scale v.y)).add (m.c2.scale v.z)).add m.c3 }

/-- Modelled from the spec: `glm::rotate(m, angle, v)` (glm headers absent): builds the
axis-angle rotation about the normalised `v` from `cos angle` and `sin angle` and combines
the first three columns of `m` with it, keeping the fourth. -/
def glmRotate (env : Env) (m : Mat4) (angle : ℚ) (v : Vec3) : Mat4 :=
  let c := env.cos angle
  let s := env.sin angle
  let n := env.inversesqrt (v.x * v.x + v.y * v.y + v.z * v.z)
  let axis : Vec3 := ⟨v.x * n, v.y * n, v.z * n⟩
  let temp : Vec3 := ⟨(1 - c) * axis.x, (1 - c) * axis.y, (1 - c) * axis.z⟩
  let r00 := c + temp.x * axis.x
  let r01 := temp.x * axis.y + s * axis.z
  let r02 := temp.x * axis.z - s * axis.y
  let r10 := temp.y * axis.x - s * axis.z
  let r11 := c + temp.y * axis.y
  let r12 := temp.y * axis.z + s * axis.x
  let r20 := temp.z * axis.x + s * axis.y
  let r21 := temp.z * axis.y - s * axis.x
  let r22 := c + temp.z * axis.z
  { c0 := ((m.c0.scale r00).add (m.c1.scale r01)).add (m.c2.scale r02)
    c1 := ((m.c0.scale r10).add (m.c1.scale r11)).add (m.c2.scale r12)
    c2 := ((m.c0.scale r20).add (m.c1.scale r21)).add (m.c2.scale r22)
    c3 := m.c3 }

/-- Modelled from the spec: `glm::value_ptr(m)`: the sixteen scalars, column after column. -/
def value_ptr (m : Mat4) : List ℚ :=
  [ m.c0.x, m.c0.y, m.c0.z, m.c0.w, m.c1.x, m.c1.y, m.c1.z, m.c1.w,
    m.c2.x, m.c2.y, m.c2.z, m.c2.w, m.c3.x, m.c3.y, m.c3.z, m.c3.w ]

/-! ## Frame loop -/

/-- The three statements of `renderScene` that compute `transform` from the time read. -/
def frameTransform (env : Env) (t : ℚ) : Mat4 :=
  let transform := Mat4.identity
  let transform := glmTranslate transform ⟨0.5, -0.5, 0.0⟩
  let transform := glmRotate env transform t ⟨0.0, 0.0, 1.0⟩
  transform

/-- `processInput(window)`. -/
def processInput (f : Frame) (w : World) : World :=
  let w := emit (.glfwGetKeyEscape f.escPressed) w
  if f.escPressed then
    { emit (.glfwSetWindowShouldClose true) w with shouldClose := true }
  else w

/-- `glfwPollEvents()`: a close event of the operating system raises the close flag. -/
def glfwPollEvents (f : Frame) (w : World) : World :=
  { emit .glfwPollEvents w with shouldClose := w.shouldClose || f.closeEvent }

/-- The body of the `while` loop of `renderScene`. -/
def frameBody (env : Env) (VAO texture1 texture2 : Nat) (f : Frame) (w : World) : World :=
  let w := processInput f w
  let w := emit (.glClearColor 0.2 0.3 0.3 1.0) w
  let w := emit .glClearColorBuffer w
  let w := emit (.glActiveTexture 0) w
  let w := emit (.glBindTexture texture1) w
  let w := emit (.glActiveTexture 1) w
  let w := emit (.glBindTexture texture2) w
  let w := emit (.glfwGetTime f.time) w
  let transform := frameTransform env f.time
  let w := emit .shaderUse w
  let w := emit (.glGetUniformLocation "transform") w
  let w := emit (.glUniformMatrix4fv (value_ptr transform)) w
  let w := emit (.glBindVertexArray VAO) w
  let w := emit (.glDrawElements 6) w
  let w := emit .glfwSwapBuffers w
  glfwPollEvents f w

/-- `renderScene`: the loop runs one body per `Frame` for as long as the close flag is
down; `none` when the frames run out with the flag still down (the loop has not exited). -/
def renderScene (env : Env) (VAO texture1 texture2 : Nat) : List Frame → World → Option World
  | [], w =>
    if w.shouldClose then some (emit (.glfwWindowShouldClose true) w) else none
  | f :: rest, w =>
    if w.shouldClose then some (emit (.glfwWindowShouldClose true) w)
    else renderScene env VAO texture1 texture2 rest
      (frameBody env VAO texture1 texture2 f (emit (.glfwWindowShouldClose false) w))

/-! ## Teardown and `main` -/

/-- `cleanup(VAO, VBO, EBO, texture1, texture2)`. -/
def cleanup (VAO VBO EBO texture1 texture2 : Nat) (w : World) : World :=
  let w := glDeleteVertexArrays VAO w
  let w := glDeleteBuffers VBO w
  let w := glDeleteBuffers EBO w
  let w := glDeleteTextures texture1 w
  glDeleteTextures texture2 w

/-- `main()`: the exit status and the final world; `none` when the frame loop does not
exit within the given frames. -/
def main (env : Env) (frames : List Frame) (w : World) : Option (Int × World) :=
  let (window, w) := initializeGLFW env w
  match window with
  | none => some (-1, w)
  | some _ =>
    let (ok, w) := initializeGLAD env w
    if ok = false then some (-1, w)
    else
      let w := emit (.shaderNew "texture.vs" "texture.fs") w
      let (VAO, w) := setupVertexData w
      let (texture1, w) := createTexture env "texture.jpg" false w
      let (texture2, w) := createTexture env "awesomeface.png" true w
      let w := emit .shaderUse w
      let w := emit (.shaderSetInt "texture1" 0) w
      let w := emit (.shaderSetInt "texture2" 1) w
      match renderScene env VAO texture1 texture2 frames w with
      | none => none
      | some w =>
        let w := cleanup VAO 0 0 texture1 texture2 w
        let w := emit .shaderDelete w
        let w := glfwTerminate w
        some (0, w)

/-- The calls that belong to context bootstrap and function-pointer loading. -/
def Event.isBootstrap : Event → Bool
  | .glfwInit => true
  | .glfwWindowHint _ _ => true
  | .glfwCreateWindow _ _ _ => true
  | .glfwTerminate => true
  | .glfwMakeContextCurrent => true
  | .glfwSetFramebufferSizeCallback => true
  | .gladLoadGLLoader => true
  | .print _ => true
  | _ => false

/-- The names passed to `glDeleteBuffers` in a trace, in order. -/
def deletedBuffers : List Event → List Nat
  | [] => []
  | .glDeleteBuffers n :: rest => n :: deletedBuffers rest
  | _ :: rest => deletedBuffers rest

/-- The names returned by `glGenBuffers` in a trace, in order. -/
def generatedBuffers : List Event → List Nat
  | [] => []
  | .glGenBuffers n :: rest => n :: generatedBuffers rest
  | _ :: rest => generatedBuffers rest

/-- A sample environment: every initialisation succeeds, every image decodes to a 2x2
four-channel buffer, and `cos` / `sin` are stood for by their Taylor polynomials of
degree two (exact at 0). -/
def Env.good : Env :=
  { windowOk := true, gladOk := true,
    decode := fun _ _ => some { width := 2, height := 2, nrChannels := 4 },
    cos := fun t => 1 - t * t / 2,
    sin := fun t => t,
    inversesqrt := fun _ => 1 }

/-- The calls made between world `w` and a later world `w'`. -/
def newEvents (w w' : World) : List Event :=
  w'.trace.drop w.trace.length

/-- The calls one `createTexture` makes, given the flag in force at the decode and the
decoder's answer. -/
def createTextureEvents (texture : Nat) (path : String) (flipVertical flipped : Bool)
    (data : Option Image) : List Event :=
  [ .glGenTextures texture, .glBindTexture texture,
    .glTexParameteri .GL_TEXTURE_WRAP_S .GL_REPEAT,
    .glTexParameteri .GL_TEXTURE_WRAP_T .GL_REPEAT,
    .glTexParameteri .GL_TEXTURE_MIN_FILTER .GL_LINEAR,
    .glTexParameteri .GL_TEXTURE_MAG_FILTER .GL_LINEAR ]
  ++ (if flipVertical then [.stbi_set_flip_vertically_on_load true] else [])
  ++ [ .stbi_load path flipped ]
  ++ (match data with
      | some img =>
        [ .glTexImage2D (selectFormat img.nrChannels) img.width img.height
            (selectFormat img.nrChannels), .glGenerateMipmap ]
      | none => [ .print ("Failed to load texture: " ++ path ++ "\n") ])
  ++ [ .stbi_image_free, .stbi_set_flip_vertically_on_load false ]

/-- The calls `setupVertexData` makes, given the three names it is handed. -/
def setupVertexDataEvents (VAO VBO EBO : Nat) : List Event :=
  [ .glGenVertexArrays VAO, .glGenBuffers VBO, .glGenBuffers EBO,
    .glBindVertexArray VAO,
    .glBindBuffer .GL_ARRAY_BUFFER VBO,
    .glBufferData .GL_ARRAY_BUFFER 80 (.floats vertices),
    .glBindBuffer .GL_ELEMENT_ARRAY_BUFFER EBO,
    .glBufferData .GL_ELEMENT_ARRAY_BUFFER 24 (.uints indices),
    .glVertexAttribPointer 0 3 20 0, .glEnableVertexAttribArray 0,
    .glVertexAttribPointer 1 2 20 12, .glEnableVertexAttribArray 1 ]

/-- The number of whole vertex records of `stride` bytes in a buffer of floats. -/
def vertexCount (data : List ℚ) (stride : Nat) : Nat :=
  data.length * sizeofScalar / stride

/-- The calls one iteration of the frame loop makes after the loop test. -/
def frameEvents (env : Env) (VAO texture1 texture2 : Nat) (f : Frame) : List Event :=
  [ .glfwGetKeyEscape f.escPressed ]
  ++ (if f.escPressed then [.glfwSetWindowShouldClose true] else [])
  ++ [ .glClearColor 0.2 0.3 0.3 1.0, .glClearColorBuffer,
       .glActiveTexture 0, .glBindTexture texture1,
       .glActiveTexture 1, .glBindTexture texture2,
       .glfwGetTime f.time,
       .shaderUse, .glGetUniformLocation "transform",
       .glUniformMatrix4fv (value_ptr (frameTransform env f.time)),
       .glBindVertexArray VAO, .glDrawElements 6,
       .glfwSwapBuffers, .glfwPollEvents ]

/-- The calls of `initializeGLFW` up to and including the window creation. -/
def bootstrapRequestEvents : List Event :=
  [ .glfwInit,
    .glfwWindowHint .contextVersionMajor (.num 3),
    .glfwWindowHint .contextVersionMinor (.num 3),
    .glfwWindowHint .openglProfile .coreProfile,
    .glfwCreateWindow 800 600 "LearnOpenGL" ]

/-- Is the event a request for a forward-compatible context? -/
def Event.isForwardCompatHint : Event → Bool
  | .glfwWindowHint .openglForwardCompat _ => true
  | _ => false

/-- The calls of the iterations run over the given frames: the loop test answering that the
close flag is down, then the body. -/
def loopEvents (env : Env) (VAO texture1 texture2 : Nat) : List Frame → List Event
  | [] => []
  | f :: rest =>
    .glfwWindowShouldClose false :: frameEvents env VAO texture1 texture2 f
      ++ loopEvents env VAO texture1 texture2 rest

/-- Does the frame raise the close flag (exit key seen, or a close event polled)? -/
def Frame.closes (f : Frame) : Bool :=
  f.escPressed || f.closeEvent

/-- The frames whose iteration runs, given the close flag at the first loop test: the loop
stops at the first test that finds the flag up. -/
def ranFrames : Bool → List Frame → List Frame
  | true, _ => []
  | false, [] => []
  | false, f :: rest => f :: ranFrames f.closes rest

/-- The statements of `main` between function-pointer loading and the frame loop: the
names handed to `renderScene` and the world it starts in. -/
def sceneSetup (env : Env) (w : World) : Nat × Nat × Nat × World :=
  let w := emit (.shaderNew "texture.vs" "texture.fs") w
  let (VAO, w) := setupVertexData w
  let (texture1, w) := createTexture env "texture.jpg" false w
  let (texture2, w) := createTexture env "awesomeface.png" true w
  let w := emit .shaderUse w
  let w := emit (.shaderSetInt "texture1" 0) w
  let w := emit (.shaderSetInt "texture2" 1) w
  (VAO, texture1, texture2, w)

/-- The statements of `main` after the frame loop. -/
def teardown (VAO texture1 texture2 : Nat) (w : World) : World :=
  glfwTerminate (emit .shaderDelete (cleanup VAO 0 0 texture1 texture2 w))

/-! # Theorems -/

theorem newEvents_of_trace {w w' : World} {l : List Event} (h : w'.trace = w.trace ++ l) :
    newEvents w w' = l := by
  simp [newEvents, h]

theorem createTexture_trace (env : Env) (path : String) (flip : Bool) (w : World) :
    (createTexture env path flip w).2.trace =
      w.trace ++ createTextureEvents (w.genTex + 1) path flip (flip || w.flipFlag)
        (env.decode path (flip || w.flipFlag)) := by
  cases flip <;> cases h : env.decode path w.flipFlag <;>
    cases h' : env.decode path true <;>
    simp [createTexture, createTextureEvents, glGenTextures, emit, stbi_load,
      stbi_set_flip_vertically_on_load, h, h']

theorem createTexture_fst (env : Env) (path : String) (flip : Bool) (w : World) :
    (createTexture env path flip w).1 = w.genTex + 1 := by
  simp [createTexture, glGenTextures]

theorem createTexture_flipFlag (env : Env) (path : String) (flip : Bool) (w : World) :
    (createTexture env path flip w).2.flipFlag = false := by
  simp [createTexture, stbi_set_flip_vertically_on_load]

theorem decodes_append (l₁ l₂ : List Event) : decodes (l₁ ++ l₂) = decodes l₁ ++ decodes l₂ := by
  induction l₁ with
  | nil => rfl
  | cons e rest ih => cases e <;> simp [decodes, ih]

theorem decodes_createTextureEvents (texture : Nat) (path : String) (flip flipped : Bool)
    (data : Option Image) :
    decodes (createTextureEvents texture path flip flipped data) = [(path, flipped)] := by
  cases flip <;> cases data <;> simp [createTextureEvents, decodes]

theorem createTextures_decodes (env : Env) (calls : List (String × Bool)) (w : World)
    (h : w.flipFlag = false) :
    decodes (createTextures env calls w).trace = decodes w.trace ++ calls ∧
      (createTextures env calls w).flipFlag = false := by
  induction calls generalizing w with
  | nil => simp [createTextures, h]
  | cons c rest ih =>
    obtain ⟨p, f⟩ := c
    have h' := ih (createTexture env p f w).2 (createTexture_flipFlag env p f w)
    simp only [createTextures]
    refine ⟨?_, h'.2⟩
    rw [h'.1, createTexture_trace, decodes_append, decodes_createTextureEvents, h]
    simp

/-- C1: after a successful decode, the one upload `createTexture` issues carries the value
of `selectFormat nrChannels` both as internal format and as source format, whatever the
path, the flip flag, the image size and the world; `selectFormat` depends on the channel
count alone, gives GL_RED at 1, GL_RGB at 3, GL_RGBA at 4, and assigns nothing at every
other channel count. -/
theorem createTexture_format_selection (env : Env) (path : String) (flip : Bool) (w : World)
    (img : Image) (h : env.decode path (flip || w.flipFlag) = some img) :
    (newEvents w (createTexture env path flip w).2).filter Event.isUpload =
        [ .glTexImage2D (selectFormat img.nrChannels) img.width img.height
            (selectFormat img.nrChannels) ] ∧
      selectFormat 1 = some .GL_RED ∧ selectFormat 3 = some .GL_RGB ∧
      selectFormat 4 = some .GL_RGBA ∧
      (∀ n : Int, n ≠ 1 ∧ n ≠ 3 ∧ n ≠ 4 ↔ selectFormat n = none) := by
  refine ⟨?_, rfl, rfl, rfl, ?_⟩
  · rw [newEvents_of_trace (createTexture_trace env path flip w), h]
    cases flip <;> simp [createTextureEvents, Event.isUpload]
  · intro n
    unfold selectFormat
    constructor
    · rintro ⟨h1, h3, h4⟩
      simp [h1, h3, h4]
    · intro hn
      split_ifs at hn with h1 h3 h4
      exact ⟨h1, h3, h4⟩

theorem createTexture_format_selection_witness :
    (newEvents World.init (createTexture Env.good "texture.jpg" false World.init).2).filter
        Event.isUpload =
        [ .glTexImage2D (some .GL_RGBA) 2 2 (some .GL_RGBA) ] ∧
      selectFormat 2 = none :=
  have h := createTexture_format_selection Env.good "texture.jpg" false World.init
    { width := 2, height := 2, nrChannels := 4 } rfl
  ⟨h.1, (h.2.2.2.2 2).1 (by decide)⟩

/-- C2: for every sequence of `createTexture` calls started with the decoder's global flip
flag false, the decodes performed are, in order, exactly the calls' own
`(path, flipVertical)` pairs, and after every call of the sequence (every prefix), whether
its decode succeeded or failed, the global flag is false again. -/
theorem createTexture_flip_does_not_leak (env : Env) (calls : List (String × Bool))
    (w : World) (h : w.flipFlag = false) :
    decodes (createTextures env calls w).trace = decodes w.trace ++ calls ∧
      ∀ k, (createTextures env (calls.take k) w).flipFlag = false :=
  ⟨(createTextures_decodes env calls w h).1,
    fun k => (createTextures_decodes env (calls.take k) w h).2⟩

theorem createTexture_flip_does_not_leak_witness :
    World.init.flipFlag = false ∧
      decodes (createTextures { Env.good with decode := fun _ _ => none }
        [("awesomeface.png", true), ("texture.jpg", false)] World.init).trace =
        [("awesomeface.png", true), ("texture.jpg", false)] :=
  ⟨rfl, (createTexture_flip_does_not_leak { Env.good with decode := fun _ _ => none }
    [("awesomeface.png", true), ("texture.jpg", false)] World.init rfl).1⟩

/-- C3: with `flipped` the flag in force at the decode, if `stbi_load` returns the null
buffer then `createTexture` prints a diagnostic that contains the path, issues neither
`glTexImage2D` nor `glGenerateMipmap`, and returns the texture name it generated; and in
every case an upload is issued iff the buffer is non-null, likewise a mipmap generation. -/
theorem createTexture_decode_failure (env : Env) (path : String) (flip : Bool) (w : World) :
    (env.decode path (flip || w.flipFlag) = none →
      Event.print ("Failed to load texture: " ++ path ++ "\n") ∈
          newEvents w (createTexture env path flip w).2 ∧
        (∀ e ∈ newEvents w (createTexture env path flip w).2,
          e.isUpload = false ∧ e.isMipmap = false) ∧
        Event.glGenTextures (createTexture env path flip w).1 ∈
          newEvents w (createTexture env path flip w).2) ∧
      ((∃ e ∈ newEvents w (createTexture env path flip w).2, e.isUpload = true) ↔
        (env.decode path (flip || w.flipFlag)).isSome = true) ∧
      ((∃ e ∈ newEvents w (createTexture env path flip w).2, e.isMipmap = true) ↔
        (env.decode path (flip || w.flipFlag)).isSome = true) := by
  rw [newEvents_of_trace (createTexture_trace env path flip w), createTexture_fst]
  cases h : env.decode path (flip || w.flipFlag) <;> cases flip <;>
    simp [createTextureEvents, Event.isUpload, Event.isMipmap]

theorem createTexture_decode_failure_witness :
    Event.print "Failed to load texture: missing.png\n" ∈
        newEvents World.init
          (createTexture { Env.good with decode := fun _ _ => none } "missing.png" true
            World.init).2 ∧
      (createTexture { Env.good with decode := fun _ _ => none } "missing.png" true
        World.init).1 = 1 :=
  ⟨((createTexture_decode_failure { Env.good with decode := fun _ _ => none } "missing.png"
      true World.init).1 rfl).1, rfl⟩

theorem setupVertexData_trace (w : World) :
    (setupVertexData w).2.trace =
      w.trace ++ setupVertexDataEvents (w.genVAO + 1) (w.genBuf + 1) (w.genBuf + 2) := by
  simp [setupVertexData, setupVertexDataEvents, glGenVertexArrays, glGenBuffers, emit,
    vertices, indices, sizeofScalar]

theorem setupVertexData_uploads (w : World) :
    uploadedVertices (newEvents w (setupVertexData w).2) = some vertices ∧
      uploadedIndices (newEvents w (setupVertexData w).2) = some indices ∧
      attribPointer 0 (newEvents w (setupVertexData w).2) = some ⟨3, 20, 0⟩ ∧
      attribPointer 1 (newEvents w (setupVertexData w).2) = some ⟨2, 20, 12⟩ := by
  rw [newEvents_of_trace (setupVertexData_trace w)]
  refine ⟨?_, ?_, ?_, ?_⟩ <;>
    simp [setupVertexDataEvents, uploadedVertices, uploadedIndices, attribPointer]

theorem frameBody_drawCounts (env : Env) (VAO texture1 texture2 : Nat) (f : Frame)
    (w : World) :
    drawCounts (newEvents w (frameBody env VAO texture1 texture2 f w)) = [6] := by
  cases hf : f.escPressed <;>
    simp [newEvents, frameBody, processInput, glfwPollEvents, emit, hf, drawCounts]

/-- C6: the index list `setupVertexData` uploads is exactly [0,1,3,1,2,3]; every index is
strictly below the number of vertices of the uploaded vertex buffer, which is 4 (20 floats
at the configured stride of 5 floats); each iteration of the frame loop issues one indexed
draw, of 6 indices, the length of that list; and both configured attributes find the
record of every drawn index inside the uploaded buffer. -/
theorem setupVertexData_indices_in_range (env : Env) (w w' : World)
    (VAO texture1 texture2 : Nat) (f : Frame) :
    ∃ vs idx a0 a1,
      uploadedVertices (newEvents w (setupVertexData w).2) = some vs ∧
      uploadedIndices (newEvents w (setupVertexData w).2) = some idx ∧
      attribPointer 0 (newEvents w (setupVertexData w).2) = some a0 ∧
      attribPointer 1 (newEvents w (setupVertexData w).2) = some a1 ∧
      idx = [0, 1, 3, 1, 2, 3] ∧
      vs.length = 20 ∧ a0.stride = 5 * sizeofScalar ∧ a1.stride = 5 * sizeofScalar ∧
      vertexCount vs a0.stride = 4 ∧
      (∀ i ∈ idx, i < vertexCount vs a0.stride) ∧
      drawCounts (newEvents w' (frameBody env VAO texture1 texture2 f w')) = [idx.length] ∧
      idx.length = 6 ∧
      (∀ i ∈ idx, (∀ s ∈ a0.slots i, s < vs.length) ∧ (∀ s ∈ a1.slots i, s < vs.length)) := by
  obtain ⟨hv, hi, h0, h1⟩ := setupVertexData_uploads w
  refine ⟨vertices, indices, ⟨3, 20, 0⟩, ⟨2, 20, 12⟩, hv, hi, h0, h1, rfl, rfl, rfl, rfl, rfl,
    by decide, frameBody_drawCounts env VAO texture1 texture2 f w', rfl, by decide⟩

/-- C7: `setupVertexData` configures attribute 0 as 3 components at offset 0 and attribute
1 as 2 components at offset 3 floats, both with a stride of 5 floats, over the 20-float
buffer it uploads; for every vertex v in 0..3 attribute 0 reads the float slots
5v, 5v+1, 5v+2 and attribute 1 the slots 5v+3, 5v+4, so the two are disjoint, together
are exactly the record [5v, 5v+5), and stay below 20; the values fetched are the positions
(0.5,0.5,0), (0.5,-0.5,0), (-0.5,-0.5,0), (-0.5,0.5,0) and the texcoords (1,1), (1,0),
(0,0), (0,1). -/
theorem setupVertexData_attribute_layout (w : World) (v : Fin 4) :
    ∃ vs a0 a1,
      uploadedVertices (newEvents w (setupVertexData w).2) = some vs ∧
      attribPointer 0 (newEvents w (setupVertexData w).2) = some a0 ∧
      attribPointer 1 (newEvents w (setupVertexData w).2) = some a1 ∧
      vs.length = 20 ∧
      a0 = ⟨3, 5 * sizeofScalar, 0⟩ ∧ a1 = ⟨2, 5 * sizeofScalar, 3 * sizeofScalar⟩ ∧
      a0.slots v = [5 * v.val, 5 * v.val + 1, 5 * v.val + 2] ∧
      a1.slots v = [5 * v.val + 3, 5 * v.val + 4] ∧
      (∀ s ∈ a0.slots v, s ∉ a1.slots v) ∧
      a0.slots v ++ a1.slots v = List.range' (5 * v) 5 ∧
      (∀ s ∈ a0.slots v ++ a1.slots v, s < vs.length) ∧
      (List.range 4).map (a0.fetch vs) =
        [some [0.5, 0.5, 0], some [0.5, -0.5, 0], some [-0.5, -0.5, 0], some [-0.5, 0.5, 0]] ∧
      (List.range 4).map (a1.fetch vs) =
        [some [1, 1], some [1, 0], some [0, 0], some [0, 1]] := by
  obtain ⟨hv, -, h0, h1⟩ := setupVertexData_uploads w
  refine ⟨vertices, ⟨3, 20, 0⟩, ⟨2, 20, 12⟩, hv, h0, h1, rfl, rfl, rfl, ?_, ?_, ?_, ?_, ?_,
    ?_, ?_⟩
  · fin_cases v <;> decide
  · fin_cases v <;> decide
  · fin_cases v <;> decide
  · fin_cases v <;> decide
  · fin_cases v <;> decide
  · simp [Attrib.fetch, Attrib.slots, readSlots, vertices, sizeofScalar, List.range,
      List.range.loop]
    norm_num
  · simp [Attrib.fetch, Attrib.slots, readSlots, vertices, sizeofScalar, List.range,
      List.range.loop]
    norm_num

theorem frameBody_trace (env : Env) (VAO texture1 texture2 : Nat) (f : Frame) (w : World) :
    (frameBody env VAO texture1 texture2 f w).trace =
      w.trace ++ frameEvents env VAO texture1 texture2 f := by
  cases hf : f.escPressed <;>
    simp [frameBody, frameEvents, processInput, glfwPollEvents, emit, hf]

theorem Mat4.apply_mul (a b : Mat4) (v : Vec4) : (a.mul b).apply v = a.apply (b.apply v) := by
  simp only [Mat4.mul, Mat4.apply, Vec4.add, Vec4.scale, Vec4.mk.injEq]
  refine ⟨?_, ?_, ?_, ?_⟩ <;> ring

/-- C8: the matrix a frame uploads is `frameTransform` of the time read in that frame,
whatever the world, the vertex array and the textures; for every time `t` it equals the
product translate(I,(0.5,-0.5,0)) · rotate(I,t,Z), translation on the left, so that a
vertex is rotated first and displaced afterwards; and at `t = 0`, where the cosine is 1
and the sine 0, it is the translation matrix by (0.5,-0.5,0) itself. -/
theorem renderScene_transform_composition (env : Env) (VAO texture1 texture2 : Nat)
    (f : Frame) (w : World) (t : ℚ) :
    Event.glUniformMatrix4fv (value_ptr (frameTransform env f.time)) ∈
        newEvents w (frameBody env VAO texture1 texture2 f w) ∧
      frameTransform env t =
        (glmTranslate Mat4.identity ⟨0.5, -0.5, 0⟩).mul
          (glmRotate env Mat4.identity t ⟨0, 0, 1⟩) ∧
      (∀ v : Vec4, (frameTransform env t).apply v =
        (glmTranslate Mat4.identity ⟨0.5, -0.5, 0⟩).apply
          ((glmRotate env Mat4.identity t ⟨0, 0, 1⟩).apply v)) ∧
      glmTranslate Mat4.identity ⟨0.5, -0.5, 0⟩ =
        { c0 := ⟨1, 0, 0, 0⟩, c1 := ⟨0, 1, 0, 0⟩, c2 := ⟨0, 0, 1, 0⟩,
          c3 := ⟨0.5, -0.5, 0, 1⟩ } ∧
      (env.cos 0 = 1 → env.sin 0 = 0 →
        frameTransform env 0 = glmTranslate Mat4.identity ⟨0.5, -0.5, 0⟩) := by
  have hprod : frameTransform env t =
      (glmTranslate Mat4.identity ⟨0.5, -0.5, 0⟩).mul
        (glmRotate env Mat4.identity t ⟨0, 0, 1⟩) := by
    simp only [frameTransform, glmTranslate, glmRotate, Mat4.mul, Mat4.identity, Vec4.add,
      Vec4.scale, Mat4.mk.injEq, Vec4.mk.injEq]
    norm_num
  refine ⟨?_, hprod, ?_, ?_, ?_⟩
  · rw [newEvents_of_trace (frameBody_trace env VAO texture1 texture2 f w)]
    cases hf : f.escPressed <;> simp [frameEvents]
  · intro v
    rw [hprod, Mat4.apply_mul]
  · simp only [glmTranslate, Mat4.identity, Vec4.add, Vec4.scale, Mat4.mk.injEq,
      Vec4.mk.injEq]
    norm_num
  · intro hc hs
    simp only [frameTransform, glmTranslate, glmRotate, Mat4.identity, Vec4.add,
      Vec4.scale, Mat4.mk.injEq, Vec4.mk.injEq, hc, hs]
    norm_num

theorem renderScene_transform_composition_witness :
    frameTransform Env.good 0 =
      { c0 := ⟨1, 0, 0, 0⟩, c1 := ⟨0, 1, 0, 0⟩, c2 := ⟨0, 0, 1, 0⟩, c3 := ⟨0.5, -0.5, 0, 1⟩ } :=
  have h := renderScene_transform_composition Env.good 1 1 2 ⟨false, 0, false⟩ World.init 0
  (h.2.2.2.2 (by simp [Env.good]) (by simp [Env.good])).trans h.2.2.2.1

theorem initializeGLFW_trace (env : Env) (w : World) :
    (initializeGLFW env w).2.trace = w.trace ++ bootstrapRequestEvents ++
      (if env.windowOk = false then
        [.print "Failed to create GLFW window\n", .glfwTerminate]
      else [.glfwMakeContextCurrent, .glfwSetFramebufferSizeCallback]) := by
  cases h : env.windowOk <;>
    simp [initializeGLFW, bootstrapRequestEvents, glfwTerminate, emit, h, SCR_WIDTH,
      SCR_HEIGHT]

/-- C9 (as stated, refuted): even when the window is created, `initializeGLFW` issues no
forward-compatibility hint among its calls. -/
theorem initializeGLFW_no_forward_compat :
    ¬ ∃ e ∈ (initializeGLFW Env.good World.init).2.trace, e.isForwardCompatHint = true := by
  rw [initializeGLFW_trace]
  simp [bootstrapRequestEvents, World.init, Env.good, Event.isForwardCompatHint]

/-- C9 (amended): `initializeGLFW` first requests version 3.3 and the core profile, with no
forward-compatibility hint, then creates the window at 800x600; when the creation fails it
prints a diagnostic, terminates GLFW and returns the null handle, having neither made a
context current nor registered the resize callback; when it succeeds it does both and
returns the handle. -/
theorem initializeGLFW_contract (env : Env) (w : World) :
    (∃ rest, newEvents w (initializeGLFW env w).2 =
        [ .glfwInit,
          .glfwWindowHint .contextVersionMajor (.num 3),
          .glfwWindowHint .contextVersionMinor (.num 3),
          .glfwWindowHint .openglProfile .coreProfile,
          .glfwCreateWindow SCR_WIDTH SCR_HEIGHT "LearnOpenGL" ] ++ rest ∧
        (env.windowOk = false →
          rest = [.print "Failed to create GLFW window\n", .glfwTerminate]) ∧
        (env.windowOk = true →
          rest = [.glfwMakeContextCurrent, .glfwSetFramebufferSizeCallback])) ∧
      SCR_WIDTH = 800 ∧ SCR_HEIGHT = 600 ∧
      (∀ e ∈ newEvents w (initializeGLFW env w).2, e.isForwardCompatHint = false) ∧
      (env.windowOk = false →
        (initializeGLFW env w).1 = none ∧
        Event.glfwMakeContextCurrent ∉ newEvents w (initializeGLFW env w).2 ∧
        Event.glfwSetFramebufferSizeCallback ∉ newEvents w (initializeGLFW env w).2 ∧
        (initializeGLFW env w).2.contextCurrent = false ∧
        (initializeGLFW env w).2.resizeCallback = false) ∧
      (env.windowOk = true →
        (initializeGLFW env w).1 = some () ∧
        (initializeGLFW env w).2.contextCurrent = true ∧
        (initializeGLFW env w).2.resizeCallback = true) := by
  have ht := initializeGLFW_trace env w
  rw [List.append_assoc] at ht
  rw [newEvents_of_trace ht]
  cases h : env.windowOk <;>
    simp [initializeGLFW, bootstrapRequestEvents, glfwTerminate, emit, h, SCR_WIDTH,
      SCR_HEIGHT, Event.isForwardCompatHint]

theorem initializeGLFW_contract_witness :
    (initializeGLFW { Env.good with windowOk := false } World.init).1 = none ∧
      Event.glfwMakeContextCurrent ∉
        newEvents World.init (initializeGLFW { Env.good with windowOk := false } World.init).2 :=
  have h := (initializeGLFW_contract { Env.good with windowOk := false } World.init).2.2.2.2.1
    rfl
  ⟨h.1, h.2.1⟩

theorem frameBody_shouldClose (env : Env) (VAO texture1 texture2 : Nat) (f : Frame)
    (w : World) :
    (frameBody env VAO texture1 texture2 f w).shouldClose = (w.shouldClose || f.closes) := by
  cases hf : f.escPressed <;>
    simp [frameBody, processInput, glfwPollEvents, emit, hf, Frame.closes]

theorem renderScene_isSome (env : Env) (VAO texture1 texture2 : Nat) (frames : List Frame)
    (w : World) :
    (renderScene env VAO texture1 texture2 frames w).isSome = true ↔
      (w.shouldClose = true ∨ ∃ f ∈ frames, f.closes = true) := by
  induction frames generalizing w with
  | nil => cases h : w.shouldClose <;> simp [renderScene, h]
  | cons f rest ih =>
    cases h : w.shouldClose
    · simp only [renderScene, h, Bool.false_eq_true, if_false, ih, frameBody_shouldClose,
        emit, Bool.false_or, false_or, List.mem_cons, exists_eq_or_imp]
    · simp [renderScene, h]

theorem renderScene_trace (env : Env) (VAO texture1 texture2 : Nat) (frames : List Frame)
    (w w' : World) (h : renderScene env VAO texture1 texture2 frames w = some w') :
    w'.trace = w.trace ++ (loopEvents env VAO texture1 texture2 (ranFrames w.shouldClose frames)
      ++ [.glfwWindowShouldClose true]) := by
  induction frames generalizing w with
  | nil =>
    cases hc : w.shouldClose <;> simp [renderScene, hc] at h
    subst h
    simp [emit, ranFrames, loopEvents]
  | cons f rest ih =>
    cases hc : w.shouldClose
    · simp only [renderScene, hc, Bool.false_eq_true, if_false] at h
      have h' := ih _ h
      rw [h', frameBody_trace, frameBody_shouldClose]
      simp [emit, hc, ranFrames, loopEvents]
    · simp only [renderScene, hc, if_true, Option.some.injEq] at h
      subst h
      simp [emit, ranFrames, loopEvents]

/-- C10: an iteration of the frame loop entered with the close flag down issues, in this
order and whatever the key state: the key query (followed by the close request iff the key
is pressed), clear colour and clear, texture1 on unit 0, texture2 on unit 1, the time read
for the transform, shader activation, the lookup of "transform" and the matrix upload,
the vertex array binding, the draw of 6 indices, the swap and the event poll.  The calls
of the whole loop are those of the iterations run followed by the loop test that finds the
flag up; and when the key is pressed in an iteration, that iteration still runs through the
event poll and the loop exits at the very next loop test. -/
theorem renderScene_frame_order (env : Env) (VAO texture1 texture2 : Nat) (f : Frame)
    (rest : List Frame) (w : World) (hw : w.shouldClose = false) :
    newEvents w (frameBody env VAO texture1 texture2 f w) =
        [ .glfwGetKeyEscape f.escPressed ]
        ++ (if f.escPressed then [.glfwSetWindowShouldClose true] else [])
        ++ [ .glClearColor 0.2 0.3 0.3 1.0, .glClearColorBuffer,
             .glActiveTexture 0, .glBindTexture texture1,
             .glActiveTexture 1, .glBindTexture texture2,
             .glfwGetTime f.time,
             .shaderUse, .glGetUniformLocation "transform",
             .glUniformMatrix4fv (value_ptr (frameTransform env f.time)),
             .glBindVertexArray VAO, .glDrawElements 6,
             .glfwSwapBuffers, .glfwPollEvents ] ∧
      ((processInput f w).shouldClose = true ↔ f.escPressed = true) ∧
      (∀ w', renderScene env VAO texture1 texture2 (f :: rest) w = some w' →
        newEvents w w' =
          loopEvents env VAO texture1 texture2 (f :: ranFrames f.closes rest)
            ++ [.glfwWindowShouldClose true]) ∧
      (f.escPressed = true →
        ∃ w', renderScene env VAO texture1 texture2 (f :: rest) w = some w' ∧
          newEvents w w' =
            [ .glfwWindowShouldClose false ]
            ++ newEvents w (frameBody env VAO texture1 texture2 f w)
            ++ [ .glfwWindowShouldClose true ]) := by
  have hbody := newEvents_of_trace (frameBody_trace env VAO texture1 texture2 f w)
  refine ⟨by rw [hbody]; rfl, ?_, ?_, ?_⟩
  · cases hf : f.escPressed <;> simp [processInput, emit, hf, hw]
  · intro w' h
    have ht := renderScene_trace env VAO texture1 texture2 (f :: rest) w w' h
    rw [newEvents_of_trace ht, hw]
    rfl
  · intro hf
    have hsome : (renderScene env VAO texture1 texture2 (f :: rest) w).isSome = true :=
      (renderScene_isSome env VAO texture1 texture2 (f :: rest) w).2
        (Or.inr ⟨f, List.mem_cons_self _ _, by simp [Frame.closes, hf]⟩)
    obtain ⟨w', hw'⟩ := Option.isSome_iff_exists.1 hsome
    refine ⟨w', hw', ?_⟩
    have ht := renderScene_trace env VAO texture1 texture2 (f :: rest) w w' hw'
    rw [newEvents_of_trace ht, hw, hbody]
    simp [ranFrames, loopEvents, Frame.closes, hf]

theorem renderScene_frame_order_witness :
    ∃ w', renderScene Env.good 1 1 2 [⟨true, 0, false⟩, ⟨false, 1, false⟩] World.init =
        some w' ∧
      newEvents World.init w' =
        [ .glfwWindowShouldClose false ]
        ++ newEvents World.init (frameBody Env.good 1 1 2 ⟨true, 0, false⟩ World.init)
        ++ [ .glfwWindowShouldClose true ] :=
  (renderScene_frame_order Env.good 1 1 2 ⟨true, 0, false⟩ [⟨false, 1, false⟩] World.init
    rfl).2.2.2 rfl

theorem createTexture_shouldClose (env : Env) (path : String) (flip : Bool) (w : World) :
    (createTexture env path flip w).2.shouldClose = w.shouldClose := by
  cases flip <;> cases h : env.decode path w.flipFlag <;>
    cases h' : env.decode path true <;>
    simp [createTexture, glGenTextures, emit, stbi_load, stbi_set_flip_vertically_on_load,
      h, h']

theorem main_window_failure (env : Env) (frames : List Frame) (w : World)
    (h : env.windowOk = false) :
    main env frames w = some (-1, (initializeGLFW env w).2) := by
  simp [main, initializeGLFW, h]

theorem main_glad_failure (env : Env) (frames : List Frame) (w : World)
    (h : env.windowOk = true) (h' : env.gladOk = false) :
    main env frames w = some (-1, (initializeGLAD env (initializeGLFW env w).2).2) := by
  simp [main, initializeGLFW, initializeGLAD, h, h']

theorem sceneSetup_shouldClose (env : Env) (w : World) :
    (sceneSetup env w).2.2.2.shouldClose = w.shouldClose := by
  simp [sceneSetup, createTexture_shouldClose, emit, setupVertexData, glGenBuffers,
    glGenVertexArrays]

theorem main_initialised (env : Env) (frames : List Frame) (w : World)
    (h : env.windowOk = true) (h' : env.gladOk = true) :
    main env frames w =
      (renderScene env (sceneSetup env (emit .gladLoadGLLoader (initializeGLFW env w).2)).1
        (sceneSetup env (emit .gladLoadGLLoader (initializeGLFW env w).2)).2.1
        (sceneSetup env (emit .gladLoadGLLoader (initializeGLFW env w).2)).2.2.1 frames
        (sceneSetup env (emit .gladLoadGLLoader (initializeGLFW env w).2)).2.2.2).map
        fun w' => ((0 : Int),
          teardown (sceneSetup env (emit .gladLoadGLLoader (initializeGLFW env w).2)).1
            (sceneSetup env (emit .gladLoadGLLoader (initializeGLFW env w).2)).2.1
            (sceneSetup env (emit .gladLoadGLLoader (initializeGLFW env w).2)).2.2.1 w') := by
  simp only [main, initializeGLFW, initializeGLAD, sceneSetup, teardown, h, h']
  simp only [Bool.true_eq_false, if_false]
  split <;> simp_all

theorem main_window_failure_trace (env : Env) (h : env.windowOk = false) :
    (initializeGLFW env World.init).2.trace =
      [ .glfwInit,
        .glfwWindowHint .contextVersionMajor (.num 3),
        .glfwWindowHint .contextVersionMinor (.num 3),
        .glfwWindowHint .openglProfile .coreProfile,
        .glfwCreateWindow 800 600 "LearnOpenGL",
        .print "Failed to create GLFW window\n", .glfwTerminate ] := by
  rw [initializeGLFW_trace]
  simp [h, bootstrapRequestEvents, World.init]

theorem main_glad_failure_trace (env : Env) (h : env.windowOk = true)
    (h' : env.gladOk = false) :
    (initializeGLAD env (initializeGLFW env World.init).2).2.trace =
      [ .glfwInit,
        .glfwWindowHint .contextVersionMajor (.num 3),
        .glfwWindowHint .contextVersionMinor (.num 3),
        .glfwWindowHint .openglProfile .coreProfile,
        .glfwCreateWindow 800 600 "LearnOpenGL",
        .glfwMakeContextCurrent, .glfwSetFramebufferSizeCallback,
        .gladLoadGLLoader, .print "Failed to initialize GLAD\n" ] := by
  simp [initializeGLAD, h', emit, initializeGLFW_trace, h, bootstrapRequestEvents, World.init]

/-- C5: started at process start, `main` returns -1 iff window creation or
function-pointer loading fails, and then its calls are exactly those of the bootstrap up
to the failure diagnostic: no shader load, geometry setup, texture load, loop iteration or
release call; it returns 0 iff both initialisations succeed and some frame raises the
close flag (the loop exits); and it returns no other status. -/
theorem main_exit_status (env : Env) (frames : List Frame) :
    ((∃ w', main env frames World.init = some (-1, w')) ↔
        (env.windowOk = false ∨ env.gladOk = false)) ∧
      (env.windowOk = false →
        ∃ w', main env frames World.init = some (-1, w') ∧
          w'.trace =
            [ .glfwInit,
              .glfwWindowHint .contextVersionMajor (.num 3),
              .glfwWindowHint .contextVersionMinor (.num 3),
              .glfwWindowHint .openglProfile .coreProfile,
              .glfwCreateWindow 800 600 "LearnOpenGL",
              .print "Failed to create GLFW window\n", .glfwTerminate ]) ∧
      (env.windowOk = true → env.gladOk = false →
        ∃ w', main env frames World.init = some (-1, w') ∧
          w'.trace =
            [ .glfwInit,
              .glfwWindowHint .contextVersionMajor (.num 3),
              .glfwWindowHint .contextVersionMinor (.num 3),
              .glfwWindowHint .openglProfile .coreProfile,
              .glfwCreateWindow 800 600 "LearnOpenGL",
              .glfwMakeContextCurrent, .glfwSetFramebufferSizeCallback,
              .gladLoadGLLoader, .print "Failed to initialize GLAD\n" ]) ∧
      (∀ w', main env frames World.init = some (-1, w') →
        ∀ e ∈ w'.trace, e.isBootstrap = true) ∧
      ((∃ w', main env frames World.init = some (0, w')) ↔
        (env.windowOk = true ∧ env.gladOk = true ∧ ∃ f ∈ frames, f.closes = true)) ∧
      (∀ s w', main env frames World.init = some (s, w') → s = -1 ∨ s = 0) := by
  cases hw : env.windowOk
  · have hm := main_window_failure env frames World.init hw
    have ht := main_window_failure_trace env hw
    rw [hm]
    refine ⟨by simp, fun _ => ⟨_, rfl, ht⟩, by simp, ?_, by simp, ?_⟩
    · intro w' h
      simp only [Option.some.injEq, Prod.mk.injEq, true_and] at h
      subst h
      rw [ht]
      decide
    · intro s w' h
      simp only [Option.some.injEq, Prod.mk.injEq] at h
      exact Or.inl h.1.symm
  · cases hg : env.gladOk
    · have hm := main_glad_failure env frames World.init hw hg
      have ht := main_glad_failure_trace env hw hg
      rw [hm]
      refine ⟨by simp, by simp, fun _ _ => ⟨_, rfl, ht⟩, ?_, by simp, ?_⟩
      · intro w' h
        simp only [Option.some.injEq, Prod.mk.injEq, true_and] at h
        subst h
        rw [ht]
        decide
      · intro s w' h
        simp only [Option.some.injEq, Prod.mk.injEq] at h
        exact Or.inl h.1.symm
    · have hm := main_initialised env frames World.init hw hg
      have hs := renderScene_isSome env
        (sceneSetup env (emit .gladLoadGLLoader (initializeGLFW env World.init).2)).1
        (sceneSetup env (emit .gladLoadGLLoader (initializeGLFW env World.init).2)).2.1
        (sceneSetup env (emit .gladLoadGLLoader (initializeGLFW env World.init).2)).2.2.1 frames
        (sceneSetup env (emit .gladLoadGLLoader (initializeGLFW env World.init).2)).2.2.2
      have hc : (sceneSetup env (emit .gladLoadGLLoader
          (initializeGLFW env World.init).2)).2.2.2.shouldClose = false := by
        rw [sceneSetup_shouldClose]
        simp [emit, initializeGLFW, hw, World.init]
      rw [hc] at hs
      rw [hm]
      refine ⟨by simp, by simp, by simp, by simp, ?_, ?_⟩
      · simp only [Bool.false_eq_true, false_or] at hs
        simp only [true_and, ← hs, Option.isSome_iff_exists]
        constructor
        · rintro ⟨w', h⟩
          simp only [Option.map_eq_some', Prod.mk.injEq, true_and] at h
          obtain ⟨a, ha, -⟩ := h
          exact ⟨a, ha⟩
        · rintro ⟨a, ha⟩
          exact ⟨_, by rw [ha]; rfl⟩
      · intro s w' h
        simp only [Option.map_eq_some', Prod.mk.injEq] at h
        obtain ⟨a, -, ha, -⟩ := h
        exact Or.inr ha.symm

theorem main_exit_status_witness :
    ∃ w', main { Env.good with gladOk := false } [] World.init = some (-1, w') ∧
      w'.trace =
        [ .glfwInit,
          .glfwWindowHint .contextVersionMajor (.num 3),
          .glfwWindowHint .contextVersionMinor (.num 3),
          .glfwWindowHint .openglProfile .coreProfile,
          .glfwCreateWindow 800 600 "LearnOpenGL",
          .glfwMakeContextCurrent, .glfwSetFramebufferSizeCallback,
          .gladLoadGLLoader, .print "Failed to initialize GLAD\n" ] :=
  (main_exit_status { Env.good with gladOk := false } []).2.2.1 rfl rfl

/-- C4 (the code at a graceful run): with every initialisation succeeding and the exit key
pressed in the first frame, `main` returns 0; `setupVertexData` generated the buffers 1 and
2, `cleanup` was handed 0 for both, so the two `glDeleteBuffers` calls name 0 and both
buffers are still live when `main` returns, after `glfwTerminate` as last call; the vertex
array and the two textures were released. -/
theorem main_graceful_exit_keeps_buffers :
    ∃ w', main Env.good [⟨true, 0, false⟩] World.init = some (0, w') ∧
      generatedBuffers w'.trace = [1, 2] ∧
      deletedBuffers w'.trace = [0, 0] ∧
      w'.liveBuf = [2, 1] ∧
      w'.liveVAO = [] ∧ w'.liveTex = [] ∧
      w'.trace.getLast? = some .glfwTerminate := by
  refine ⟨_, rfl, ?_, ?_, ?_, ?_, ?_, ?_⟩ <;> rfl

end Trygl
